import Mathlib

/-!
Verification development for the piccolo schema/query modelling layer.

Shallow embedding of:
* the foreign-key join-chain resolver (`ForeignKey.__getattribute__`,
  `piccolo/columns/column_types.py`),
* the Alter/DDL statement builder (`piccolo/query/methods/alter.py`),
* query freezing (`piccolo/query/base.py`),
* the many-to-many select sub-query builder (`piccolo/columns/m2m.py`),
* timedelta arithmetic rendering (`TimedeltaDelegate`,
  `piccolo/columns/column_types.py`),
* DDL literal rendering (`Column.get_sql_value`, `piccolo/columns/base.py`),
* array indexing (`Array.__getitem__` / `Array.get_select_string`,
  `piccolo/columns/column_types.py`).

Python machine types are modelled as follows: `str` as `String`, `int` as
`Int`/`Nat` (Python ints are unbounded), `datetime.timedelta` as its exact
internal value (a count of microseconds), `decimal.Decimal` as
sign/coefficient-digits/exponent.  Raising an exception is modelled as
`Except.error` carrying the message.
-/

namespace Piccolo

/-! ## Decimal and DDL literal rendering (`Column.get_sql_value`) -/

/-- Model of a `decimal.Decimal` value: sign, coefficient digits (most
significant first, no leading zeros except for the single digit `0`), and
exponent, as in Python's internal triple. -/
structure PyDecimal where
  sign : Bool
  digits : List Char
  exp : Int
deriving Repr, DecidableEq

/-- Model of `str(decimal.Decimal)`: the to-scientific-string algorithm of the
IBM decimal arithmetic specification, which Python's `decimal` follows. -/
def decimalStr (x : PyDecimal) : String :=
  let adjusted : Int := x.exp + x.digits.length - 1
  let body :=
    if x.exp ≤ 0 ∧ -6 ≤ adjusted then
      if x.exp = 0 then String.mk x.digits
      else
        let e := (-x.exp).toNat
        if e < x.digits.length then
          String.mk (x.digits.take (x.digits.length - e)) ++ "." ++
            String.mk (x.digits.drop (x.digits.length - e))
        else
          "0." ++ String.mk (List.replicate (e - x.digits.length) '0') ++
            String.mk x.digits
    else
      let head := String.mk (x.digits.take 1)
      let rest := x.digits.drop 1
      let fracPart := if rest.isEmpty then "" else "." ++ String.mk rest
      let expPart :=
        if adjusted < 0 then s!"E-{(-adjusted).toNat}" else s!"E+{adjusted.toNat}"
      head ++ fracPart ++ expPart
  if x.sign then "-" ++ body else body

/-- The value `decimal.Decimal(0.0)`: converting the float `0.0` is exact and
yields `Decimal('0')`, i.e. coefficient digit `0` with exponent `0`.  This is
the default of `Numeric.__init__` (`column_types.py`). -/
def numericDefaultDecimal : PyDecimal := ⟨false, ['0'], 0⟩

/-- A Python value passed to `Column.get_sql_value`.  `defaultSentinel` models
a `Default` instance (its per-dialect literal is looked up with
`getattr(value, engine_type)`, modelled as a function from the engine-type
string).  `pyfloat` carries the result of the Python runtime's float-to-string
conversion, which is kept abstract; `pydecimal` carries the full decimal
value.  `pydatetime` carries `value.isoformat()`.  `other` models any other
object (returned unchanged by the source). -/
inductive PyValue where
  | defaultSentinel (literal : String → String)
  | pynone
  | pyfloat (strForm : String)
  | pydecimal (d : PyDecimal)
  | pystr (s : String)
  | pybool (b : Bool)
  | pydatetime (isoformat : String)
  | other (passthrough : String)

/-- Embeds `Column.get_sql_value` (`piccolo/columns/base.py`, lines 302-331):
converts a Python default value into a literal usable inside a DDL
statement. -/
def getSqlValue (engineType : String) (value : PyValue) : String :=
  match value with
  | .defaultSentinel literal => literal engineType
  | .pynone => "null"
  | .pyfloat strForm => strForm
  | .pydecimal d => decimalStr d
  | .pystr s => "'" ++ s ++ "'"
  | .pybool b => if b then "true" else "false"
  | .pydatetime isoformat => "'" ++ (isoformat.replace "T" "") ++ "'"
  | .other passthrough => passthrough

/-! ## Alter/DDL statement builder (`piccolo/query/methods/alter.py`)

Each `AlterStatement` dataclass is a structure whose `ddl` is taken verbatim
from the source.  `Column.ddl` (used by `AddColumn.ddl`) and
`Table._meta.get_formatted_tablename()` are not part of the provided source
tree, so the rendered column definition and the formatted table name are
carried as opaque strings. -/

structure RenameTableS where
  newName : String
deriving Repr, DecidableEq

def RenameTableS.ddl (x : RenameTableS) : String := s!"RENAME TO {x.newName}"

structure RenameConstraintS where
  oldName : String
  newName : String
deriving Repr, DecidableEq

def RenameConstraintS.ddl (x : RenameConstraintS) : String :=
  s!"RENAME CONSTRAINT {x.oldName} TO {x.newName}"

structure RenameColumnS where
  columnName : String
  newName : String
deriving Repr, DecidableEq

def RenameColumnS.ddl (x : RenameColumnS) : String :=
  s!"RENAME COLUMN \"{x.columnName}\" TO \"{x.newName}\""

structure DropColumnS where
  columnName : String
deriving Repr, DecidableEq

def DropColumnS.ddl (x : DropColumnS) : String := s!"DROP COLUMN \"{x.columnName}\""

/-- Modelled from the spec: the column definition text produced by
`Column.ddl` (whose source is not under `src/`) is carried opaquely in
`columnDdl`; `AddColumn.ddl` first assigns `column._meta.name = self.name` and
then renders `ADD COLUMN {column.ddl}`. -/
structure AddColumnS where
  name : String
  columnDdl : String
deriving Repr, DecidableEq

def AddColumnS.ddl (x : AddColumnS) : String := s!"ADD COLUMN {x.columnDdl}"

structure DropDefaultS where
  columnName : String
deriving Repr, DecidableEq

def DropDefaultS.ddl (x : DropDefaultS) : String :=
  s!"ALTER COLUMN \"{x.columnName}\" DROP DEFAULT"

/-- The new column's rendered type (`new_column.column_type`) is carried as an
opaque string. -/
structure SetColumnTypeS where
  oldColumnName : String
  newColumnType : String
  usingExpression : Option String
deriving Repr, DecidableEq

def SetColumnTypeS.ddl (x : SetColumnTypeS) : String :=
  let query := s!"ALTER COLUMN \"{x.oldColumnName}\" TYPE {x.newColumnType}"
  match x.usingExpression with
  | some u => query ++ s!" USING {u}"
  | none => query

/-- The rendered default (`column.get_sql_value(value)`) is carried as an
opaque string. -/
structure SetDefaultS where
  columnName : String
  sqlValue : String
deriving Repr, DecidableEq

def SetDefaultS.ddl (x : SetDefaultS) : String :=
  s!"ALTER COLUMN \"{x.columnName}\" SET DEFAULT {x.sqlValue}"

structure SetUniqueS where
  tablename : String
  columnName : String
  boolean : Bool
deriving Repr, DecidableEq

def SetUniqueS.ddl (x : SetUniqueS) : String :=
  if x.boolean then s!"ADD UNIQUE (\"{x.columnName}\")"
  else s!"DROP CONSTRAINT \"{x.tablename}_{x.columnName}_key\""

structure SetNullS where
  columnName : String
  boolean : Bool
deriving Repr, DecidableEq

def SetNullS.ddl (x : SetNullS) : String :=
  if x.boolean then s!"ALTER COLUMN \"{x.columnName}\" DROP NOT NULL"
  else s!"ALTER COLUMN \"{x.columnName}\" SET NOT NULL"

structure SetLengthS where
  columnName : String
  length : Nat
deriving Repr, DecidableEq

def SetLengthS.ddl (x : SetLengthS) : String :=
  s!"ALTER COLUMN \"{x.columnName}\" TYPE VARCHAR({x.length})"

structure DropConstraintS where
  constraintName : String
deriving Repr, DecidableEq

def DropConstraintS.ddl (x : DropConstraintS) : String :=
  s!"DROP CONSTRAINT IF EXISTS {x.constraintName}"

structure AddForeignKeyConstraintS where
  constraintName : String
  foreignKeyColumnName : String
  referencedTableName : String
  referencedColumnName : String
  onDelete : Option String
  onUpdate : Option String
deriving Repr, DecidableEq

def AddForeignKeyConstraintS.ddl (x : AddForeignKeyConstraintS) : String :=
  let query :=
    s!"ADD CONSTRAINT \"{x.constraintName}\" FOREIGN KEY " ++
    s!"(\"{x.foreignKeyColumnName}\") REFERENCES " ++
    s!"\"{x.referencedTableName}\" (\"{x.referencedColumnName}\")"
  let query := match x.onDelete with
    | some v => query ++ s!" ON DELETE {v}"
    | none => query
  match x.onUpdate with
  | some v => query ++ s!" ON UPDATE {v}"
  | none => query

structure SetDigitsS where
  columnName : String
  digits : Option (Nat × Nat)
  columnType : String
deriving Repr, DecidableEq

def SetDigitsS.ddl (x : SetDigitsS) : String :=
  match x.digits with
  | none => s!"ALTER COLUMN \"{x.columnName}\" TYPE {x.columnType}"
  | some (precision, scale) =>
      s!"ALTER COLUMN \"{x.columnName}\" TYPE " ++
        s!"{x.columnType}({precision}, {scale})"

structure SetSchemaS where
  schemaName : String
deriving Repr, DecidableEq

def SetSchemaS.ddl (x : SetSchemaS) : String := s!"SET SCHEMA \"{x.schemaName}\""

/-- The formatted table name (`table._meta.get_formatted_tablename()`) is
carried as an opaque string. -/
structure DropTableS where
  formattedTablename : String
  cascade : Bool
  ifExists : Bool
deriving Repr, DecidableEq

def DropTableS.ddl (x : DropTableS) : String :=
  let query := "DROP TABLE"
  let query := if x.ifExists then query ++ " IF EXISTS" else query
  let query := query ++ s!" {x.formattedTablename}"
  if x.cascade then query ++ " CASCADE" else query

/-- The accumulated state of an `Alter` query: one field per `__slots__`
entry of the `Alter` class. -/
structure AlterS where
  tableFormattedName : String
  add : List AddColumnS := []
  addForeignKeyConstraint : List AddForeignKeyConstraintS := []
  dropConstraint : List DropConstraintS := []
  dropDefault : List DropDefaultS := []
  dropTable : Option DropTableS := none
  drop : List DropColumnS := []
  renameColumns : List RenameColumnS := []
  renameTable : List RenameTableS := []
  setColumnType : List SetColumnTypeS := []
  setDefault : List SetDefaultS := []
  setDigits : List SetDigitsS := []
  setLength : List SetLengthS := []
  setNull : List SetNullS := []
  setSchema : List SetSchemaS := []
  setUnique : List SetUniqueS := []
  renameConstraint : List RenameConstraintS := []
deriving Repr, DecidableEq

/-- Embeds `Alter.__init__`: an empty batch for the given table. -/
def AlterS.init (tableFormattedName : String) : AlterS := { tableFormattedName }

/-- Embeds `Alter.add_column` (the `ForeignKey._setup` call and metadata
assignment have no effect on rendering beyond the intercepted name, which is
folded into the opaque `columnDdl`). -/
def AlterS.addColumn (a : AlterS) (name : String) (columnDdl : String) : AlterS :=
  { a with add := a.add ++ [⟨name, columnDdl⟩] }

/-- Embeds `Alter.drop_column`. -/
def AlterS.dropColumn (a : AlterS) (columnName : String) : AlterS :=
  { a with drop := a.drop ++ [⟨columnName⟩] }

/-- Embeds `Alter.rename_column`. -/
def AlterS.renameColumn (a : AlterS) (columnName newName : String) : AlterS :=
  { a with renameColumns := a.renameColumns ++ [⟨columnName, newName⟩] }

/-- Embeds `Alter.drop_default`. -/
def AlterS.dropDefaultB (a : AlterS) (columnName : String) : AlterS :=
  { a with dropDefault := a.dropDefault ++ [⟨columnName⟩] }

/-- Embeds `Alter.set_schema`. -/
def AlterS.setSchemaB (a : AlterS) (schemaName : String) : AlterS :=
  { a with setSchema := a.setSchema ++ [⟨schemaName⟩] }

/-- Embeds `Alter.drop_table`: overwrites any previously requested drop. -/
def AlterS.dropTableB (a : AlterS) (cascade ifExists : Bool) : AlterS :=
  { a with dropTable := some ⟨a.tableFormattedName, cascade, ifExists⟩ }

/-- Embeds the `itertools.chain(...)` clause list of `Alter.default_ddl`,
rendered in the source's fixed category order. -/
def AlterS.alterations (a : AlterS) : List String :=
  a.add.map AddColumnS.ddl ++
  a.addForeignKeyConstraint.map AddForeignKeyConstraintS.ddl ++
  a.renameColumns.map RenameColumnS.ddl ++
  a.renameTable.map RenameTableS.ddl ++
  a.renameConstraint.map RenameConstraintS.ddl ++
  a.drop.map DropColumnS.ddl ++
  a.dropConstraint.map DropConstraintS.ddl ++
  a.dropDefault.map DropDefaultS.ddl ++
  a.setColumnType.map SetColumnTypeS.ddl ++
  a.setUnique.map SetUniqueS.ddl ++
  a.setNull.map SetNullS.ddl ++
  a.setLength.map SetLengthS.ddl ++
  a.setDefault.map SetDefaultS.ddl ++
  a.setDigits.map SetDigitsS.ddl ++
  a.setSchema.map SetSchemaS.ddl

/-- Embeds `Alter.default_ddl` (`alter.py`, lines 626-661): a pending
`DROP TABLE` short-circuits everything; SQLite gets one statement per clause;
other dialects get a single comma-joined `ALTER TABLE` statement. -/
def AlterS.defaultDdl (engineType : String) (a : AlterS) : List String :=
  match a.dropTable with
  | some dt => [dt.ddl]
  | none =>
    let query := s!"ALTER TABLE {a.tableFormattedName}"
    let alts := a.alterations
    if engineType == "sqlite" then
      alts.map (fun i => s!"{query} {i}")
    else
      [query ++ String.intercalate "," (alts.map (fun i => s!" {i}"))]

/-- Embeds `DDL.ddl` (`piccolo/query/base.py`): per-dialect dispatch with
fallback to `default_ddl`.  `Alter` implements none of the dialect-specific
properties, so all three recognised engines use `default_ddl`. -/
def AlterS.ddlDispatch (engineType : String) (a : AlterS) : Except String (List String) :=
  if engineType == "postgres" then .ok (a.defaultDdl engineType)
  else if engineType == "sqlite" then .ok (a.defaultDdl engineType)
  else if engineType == "cockroach" then .ok (a.defaultDdl engineType)
  else .error s!"No querystring found for the {engineType} engine."

/-! ## Query freezing (`piccolo/query/base.py`) -/

/-- A query's rendering state.  `none` for a dialect-specific querystring
list models that the property raises `NotImplementedError`; the shared
`default_querystrings` may itself be unimplemented. -/
structure QueryModel where
  frozenQuerystrings : Option (List String) := none
  postgresQs : Option (List String) := none
  sqliteQs : Option (List String) := none
  cockroachQs : Option (List String) := none
  defaultQs : Option (List String) := none
deriving Repr, DecidableEq

/-- Embeds the `try: return specific except NotImplementedError: return
default` pattern of `Query.querystrings`. -/
def dialectOrDefault (specific dflt : Option (List String)) : Except String (List String) :=
  match specific with
  | some qs => .ok qs
  | none =>
    match dflt with
    | some qs => .ok qs
    | none => .error "NotImplementedError"

/-- Embeds `Query.querystrings` (`base.py`, lines 247-273): cached frozen
querystrings are returned unconditionally; otherwise the dialect of the given
engine selects the renderer, with a hard failure for unknown dialects. -/
def querystrings (engineType : String) (q : QueryModel) : Except String (List String) :=
  match q.frozenQuerystrings with
  | some qs => .ok qs
  | none =>
    if engineType == "postgres" then dialectOrDefault q.postgresQs q.defaultQs
    else if engineType == "sqlite" then dialectOrDefault q.sqliteQs q.defaultQs
    else if engineType == "cockroach" then dialectOrDefault q.cockroachQs q.defaultQs
    else .error s!"No querystring found for the {engineType} engine."

/-- Embeds `Query.freeze` (`base.py`, lines 277-331): renders once with the
current engine and stores the result as the copy's frozen querystrings (the
copy keeps the class-level renderers; the delegate copies do not affect
rendering). -/
def freeze (engineType : String) (q : QueryModel) : Except String QueryModel :=
  match querystrings engineType q with
  | .ok qs => .ok { q with frozenQuerystrings := some qs }
  | .error e => .error e

/-- Embeds `FrozenQuery.__getattr__` (`base.py`, lines 352-359): called for
any attribute not defined on `FrozenQuery` itself; always raises
`AttributeError`, with a message depending on whether the wrapped query has
the attribute.  `queryAttrNames` is the set of attribute names present on the
wrapped query (clause methods such as `where`, `limit`, `output`). -/
def frozenQueryGetattr (queryAttrNames : List String) (name : String) : Except String Unit :=
  if queryAttrNames.contains name then
    .error s!"This query is frozen - {name} is only available on unfrozen queries."
  else
    .error "Unrecognised attribute name."

/-! ## Foreign-key join-chain resolution (`ForeignKey.__getattribute__`) -/

/-- A `ForeignKey` column as far as traversal is concerned: its attribute
name and the table it references (an index into the schema). -/
structure FKModel where
  name : String
  references : Nat
deriving Repr, DecidableEq

/-- A table: the names of its plain (non-relationship) columns and its
foreign-key columns. -/
structure TableModel where
  plainCols : List String
  fkCols : List FKModel
deriving Repr, DecidableEq

/-- A schema is a list of tables; `FKModel.references` indexes into it. -/
abbrev Schema := List TableModel

/-- The result of one attribute access on a `ForeignKey`: either a traversed
`ForeignKey` copy, or a copy of a plain column, each carrying its
`call_chain`. -/
inductive Traversed where
  | fkCol (f : FKModel) (callChain : List FKModel)
  | plainCol (name : String) (callChain : List FKModel)
deriving Repr, DecidableEq

/-- Looks up a foreign-key column by attribute name on a table. -/
def findFK (t : TableModel) (attr : String) : Option FKModel :=
  t.fkCols.find? (fun g => g.name == attr)

/-- Embeds `ForeignKey.__getattribute__` (`column_types.py`, lines 2206-2281)
for a column-valued attribute, with `self`'s `call_chain` passed explicitly.
Both branches return a copy whose chain is `selfChain ++ [self]` (the
`ForeignKey` branch appends `self` to the proxy's chain, which equals
`self`'s own chain; the plain-column branch copies `self`'s chain and appends
`self`).  Only the `ForeignKey` branch performs the depth check
`len(call_chain) >= 10`. -/
def fkGetattribute (schema : Schema) (self : FKModel) (selfChain : List FKModel)
    (attr : String) : Except String Traversed :=
  match schema[self.references]? with
  | none => .error "unresolved table reference"
  | some t =>
    match findFK t attr with
    | some f2 =>
      let newChain := selfChain ++ [self]
      if 10 ≤ newChain.length then .error "Call chain too long!"
      else .ok (.fkCol f2 newChain)
    | none =>
      if t.plainCols.contains attr then .ok (.plainCol attr (selfChain ++ [self]))
      else .error "AttributeError"

/-- Chained attribute traversal `root.a1.a2...an`, applying
`fkGetattribute` at each hop.  A plain column ends the chain (columns other
than `ForeignKey` expose no further proxy columns). -/
def resolvePath (schema : Schema) (self : FKModel) (selfChain : List FKModel) :
    List String → Except String Traversed
  | [] => .ok (.fkCol self selfChain)
  | attr :: rest =>
    match fkGetattribute schema self selfChain attr with
    | .error e => .error e
    | .ok (.fkCol f2 c2) => resolvePath schema f2 c2 rest
    | .ok (.plainCol n c2) =>
      match rest with
      | [] => .ok (.plainCol n c2)
      | _ :: _ => .error "AttributeError"

/-- Validity of an attribute path from foreign key `f`: each intermediate
attribute resolves to a foreign-key column on the table `f` references
(collected in order in `fks`), and the final attribute is a plain column on
the terminal table. -/
inductive ValidFrom (schema : Schema) : FKModel → List String → List FKModel → String → Prop where
  | last (f : FKModel) (t : TableModel) (term : String) :
      schema[f.references]? = some t →
      findFK t term = none →
      t.plainCols.contains term = true →
      ValidFrom schema f [term] [] term
  | step (f : FKModel) (t : TableModel) (a : String) (f2 : FKModel)
      (attrs : List String) (fks : List FKModel) (term : String) :
      schema[f.references]? = some t →
      findFK t a = some f2 →
      ValidFrom schema f2 attrs fks term →
      ValidFrom schema f (a :: attrs) (f2 :: fks) term

/-! ## Copy semantics of traversal (`ForeignKey.__getattribute__`, plain
branch, with the mutable `call_chain` lists made explicit)

Python's `call_chain` is a mutable list owned by a `ColumnMeta`.  To state
that traversal never mutates the original column, the lists live in an
explicit store and columns hold references into it. -/

/-- A store of `call_chain` lists; a column's `ColumnMeta` refers to its
chain by index. -/
abbrev ChainStore := List (List FKModel)

def readChain (s : ChainStore) (i : Nat) : List FKModel := s.getD i []

def writeChain (s : ChainStore) (i : Nat) (v : List FKModel) : ChainStore := s.set i v

/-- Allocates a fresh list cell. -/
def allocChain (s : ChainStore) (v : List FKModel) : ChainStore × Nat :=
  (s ++ [v], s.length)

/-- A column as seen by the copy logic: its name and a reference to its
`call_chain` list. -/
structure ColumnRef where
  name : String
  chainRef : Nat
deriving Repr, DecidableEq

/-- Modelled from the spec: `Column.copy` / `ColumnMeta.copy` are not part of
the provided source tree; per the spec a copy carries "an owned, cloned
join-chain vector", so the copy allocates a fresh cell holding the same
contents. -/
def columnCopy (s : ChainStore) (c : ColumnRef) : ChainStore × ColumnRef :=
  let (s1, r) := allocChain s (readChain s c.chainRef)
  (s1, { c with chainRef := r })

/-- Embeds the plain-column branch of `ForeignKey.__getattribute__`
(`column_types.py`, lines 2271-2279) with the store explicit:
`new_column = value.copy()`, then
`new_column._meta.call_chain = column_meta.call_chain.copy()` (a clone of
`self`'s chain), then `new_column._meta.call_chain.append(self)`. -/
def fkGetattrPlain (s : ChainStore) (selfFK : FKModel) (selfChainRef : Nat)
    (attrCol : ColumnRef) : ChainStore × ColumnRef :=
  let (s1, newCol) := columnCopy s attrCol
  let s2 := writeChain s1 newCol.chainRef (readChain s1 selfChainRef)
  let s3 := writeChain s2 newCol.chainRef (readChain s2 newCol.chainRef ++ [selfFK])
  (s3, newCol)

/-! ## Many-to-many role resolution and sub-query building
(`piccolo/columns/m2m.py`) -/

/-- The resolution-relevant data of `M2MMeta`: the identity of the table the
`M2M` is declared on, the junction table's foreign-key columns in declaration
order, and the optional explicit override passed to `M2M.__init__`. -/
structure M2MMetaModel where
  table : Nat
  junctionFks : List FKModel
  explicitFkColumns : Option (List FKModel) := none
deriving Repr, DecidableEq

/-- Embeds `M2MMeta.foreign_key_columns`: the explicit override if given,
otherwise the first two foreign-key columns of the junction table. -/
def M2MMetaModel.foreignKeyColumns (m : M2MMetaModel) : List FKModel :=
  match m.explicitFkColumns with
  | some l => l
  | none => m.junctionFks.take 2

/-- Embeds `M2MMeta.primary_foreign_key` (`m2m.py`, lines 207-237): the first
foreign-key column whose resolved references equal the declaring table;
raises if none matches. -/
def M2MMetaModel.primaryForeignKey (m : M2MMetaModel) : Except String FKModel :=
  match m.foreignKeyColumns.find? (fun fk => fk.references == m.table) with
  | some fk => .ok fk
  | none => .error "No matching foreign key column found!"

/-- Embeds `M2MMeta.secondary_foreign_key` (`m2m.py`, lines 244-252): the
first foreign-key column whose resolved references differ from the declaring
table; raises if none matches. -/
def M2MMetaModel.secondaryForeignKey (m : M2MMetaModel) : Except String FKModel :=
  match m.foreignKeyColumns.find? (fun fk => !(fk.references == m.table)) with
  | some fk => .ok fk
  | none => .error "No matching foreign key column found!"

/-- The value type of a column class (`column.__class__.value_type`), as far
as `M2MSelect.serialisation_safe` is concerned. -/
inductive ColumnValueType where
  | vtInt
  | vtStr
  | vtOther
deriving Repr, DecidableEq

/-- A requested column in an `M2MSelect`: its database column name, its class
value type, and whether its class is `JSON`/`JSONB` (whose `value_type` is
`str`). -/
structure M2MColumnModel where
  dbColumnName : String
  valueType : ColumnValueType
  isJSONType : Bool
deriving Repr, DecidableEq

/-- Embeds the `serialisation_safe` computation of `M2MSelect.__init__`
(`m2m.py`, lines 50-58): every column's value type is `int` or `str` and the
column is not `JSON`/`JSONB`. -/
def serialisationSafe (columns : List M2MColumnModel) : Bool :=
  columns.all (fun c =>
    (c.valueType == .vtInt || c.valueType == .vtStr) && !c.isJSONType)

/-- An `M2MSelect` request plus the resolved metadata names that appear in
the rendered sub-query's select target and alias. -/
structure M2MSelectModel where
  columns : List M2MColumnModel
  asList : Bool
  loadJson : Bool
  m2mName : String
  table2PkName : String
deriving Repr, DecidableEq

/-- The shape of the rendered correlated sub-query: which column(s) it
selects from the related table and under what alias.  The correlated
`inner_select` join text is common to all branches and is omitted. -/
inductive M2MSelectShape where
  | pgArray (selectColumn : String) (aliasName : String)
  | pgJsonAgg (selectColumns : List String) (aliasName : String)
  | sqliteGroupConcat (selectColumn : String) (aliasName : String)
deriving Repr, DecidableEq

/-- Embeds `M2MSelect.get_select_string` (`m2m.py`, lines 60-150): on
Postgres/Cockroach, `as_list` selects the single requested column into an
array, a non-serialisation-safe request selects the related primary key, and
otherwise `JSON_AGG` aggregates the requested columns; on SQLite a
`group_concat` of a single column is used - the related primary key unless
exactly one serialisation-safe column was requested. -/
def m2mGetSelectString (engineType : String) (m : M2MSelectModel) :
    Except String M2MSelectShape :=
  if engineType == "postgres" || engineType == "cockroach" then
    if m.asList then
      match m.columns.head? with
      | some c => .ok (.pgArray c.dbColumnName m.m2mName)
      | none => .error "IndexError"
    else if !(serialisationSafe m.columns) then
      .ok (.pgArray m.table2PkName m.m2mName)
    else
      .ok (.pgJsonAgg (m.columns.map (fun c => c.dbColumnName)) m.m2mName)
  else if engineType == "sqlite" then
    if 1 < m.columns.length || !(serialisationSafe m.columns) then
      .ok (.sqliteGroupConcat m.table2PkName (m.m2mName ++ " [M2M]"))
    else
      match m.columns.head? with
      | some c => .ok (.sqliteGroupConcat c.dbColumnName (m.m2mName ++ " [M2M]"))
      | none => .error "AssertionError"
  else
    .error s!"{engineType} is an unrecognised engine type"

/-! ## Timedelta arithmetic rendering (`TimedeltaDelegate`,
`piccolo/columns/column_types.py`, lines 175-297) -/

/-- A `datetime.timedelta`, represented by its exact value: a (signed) count
of microseconds.  The Python attributes `days`, `seconds`, `microseconds`
are the floor-normalised components. -/
structure PyTimedelta where
  us : Int
deriving Repr, DecidableEq

def PyTimedelta.days (t : PyTimedelta) : Int := Int.fdiv t.us 86400000000

def PyTimedelta.secondsAttr (t : PyTimedelta) : Int :=
  Int.fdiv (Int.emod t.us 86400000000) 1000000

/-- Python's `timedelta.microseconds` attribute: the floor-normalised
microsecond component, always in `[0, 10^6)`.  For the positive modulus
`10^6`, Python's floor remainder coincides with `%` on `Int`. -/
def PyTimedelta.microseconds (t : PyTimedelta) : Int := t.us % 1000000

/-- Python's `round` applied to `microseconds / 1000`: exact half-to-even
rounding (dyadic `.5` values are exactly representable as floats, so the
float computation agrees with exact rational rounding).  The argument is a
`microseconds` attribute, hence non-negative, so `/` and `%` agree with
Python's floor division. -/
def roundDiv1000 (n : Int) : Int :=
  let q := n / 1000
  let r := n % 1000
  if r < 500 then q
  else if 500 < r then q + 1
  else if q % 2 = 0 then q else q + 1

/-- Embeds `TimedeltaDelegate.get_postgres_interval_string`: each non-zero
component contributes `"{value} {NAME}"`, joined with spaces and quoted. -/
def getPostgresIntervalString (v : PyTimedelta) : String :=
  let parts :=
    [(v.days, "DAYS"), (v.secondsAttr, "SECONDS"), (v.microseconds, "MICROSECONDS")]
  let output := parts.filterMap (fun p =>
    if p.1 ≠ 0 then some s!"{p.1} {p.2}" else none)
  "'" ++ String.intercalate " " output ++ "'"

/-- The temporal column class the delegate is applied to, following the
`isinstance` dispatch of `get_querystring`.  `otherKind` carries the class
name used in the error message. -/
inductive TemporalColumnKind where
  | interval
  | timestamp
  | timestamptz
  | date
  | otherKind (className : String)
deriving Repr, DecidableEq

/-- The rendered querystring of a timedelta update.  The SQLite interval and
strftime branches involve Python float formatting of the interval's seconds;
the numeric payload is kept exact (the timedelta value itself) and the final
float-to-string step is not modelled. -/
inductive TimedeltaQs where
  | pgInterval (columnName : String) (op : String) (valueString : String)
  | sqliteIntervalCast (columnName : String) (op : String) (value : PyTimedelta)
  | sqliteStrftime (strftimeFormat : String) (columnName : String) (value : PyTimedelta)
deriving Repr, DecidableEq

/-- Embeds `TimedeltaDelegate.get_querystring` (`column_types.py`, lines
244-297).  The `value` argument is statically a timedelta, so the
`isinstance` guard cannot fire.  On SQLite, `Timestamp`/`Timestamptz`
columns reject timedeltas whose microseconds are not exactly representable
at millisecond resolution; subtraction negates the timedelta before
rendering. -/
def timedeltaGetQuerystring (column : TemporalColumnKind) (columnName : String)
    (op : String) (value : PyTimedelta) (engineType : String) :
    Except String TimedeltaQs :=
  if engineType == "postgres" || engineType == "cockroach" then
    .ok (.pgInterval columnName op (getPostgresIntervalString value))
  else if engineType == "sqlite" then
    match column with
    | .interval => .ok (.sqliteIntervalCast columnName op value)
    | .timestamp =>
      if roundDiv1000 value.microseconds * 1000 ≠ value.microseconds then
        .error ("timedeltas with such high precision won't save " ++
          "accurately - the max resolution is 1 millisecond.")
      else
        let value := if op == "-" then PyTimedelta.mk (-value.us) else value
        .ok (.sqliteStrftime "%Y-%m-%d %H:%M:%f" columnName value)
    | .timestamptz =>
      if roundDiv1000 value.microseconds * 1000 ≠ value.microseconds then
        .error ("timedeltas with such high precision won't save " ++
          "accurately - the max resolution is 1 millisecond.")
      else
        let value := if op == "-" then PyTimedelta.mk (-value.us) else value
        .ok (.sqliteStrftime "%Y-%m-%d %H:%M:%f" columnName value)
    | .date =>
      let value := if op == "-" then PyTimedelta.mk (-value.us) else value
      .ok (.sqliteStrftime "%Y-%m-%d" columnName value)
    | .otherKind className =>
      .error s!"{className} doesn't support timedelta addition currently."
  else
    .error "Unrecognised engine"

/-! ## Array indexing (`Array.__getitem__` / `Array.get_select_string`,
`piccolo/columns/column_types.py`, lines 2715-2763) -/

/-- The state of an `Array` column relevant to indexing.  `fullName` models
`self._meta.get_full_name(with_alias=False)` and `defaultAlias` models
`self._meta.get_default_alias()`; their sources are not under `src/`, so the
strings are carried opaquely. -/
structure ArrayColumnModel where
  engineType : String
  index : Option Int := none
  fullName : String
  aliasOpt : Option String := none
  defaultAlias : String
deriving Repr, DecidableEq

/-- The value passed to `Array.__getitem__`: either a Python `int` or some
non-integer object. -/
inductive PyIndexArg where
  | intArg (i : Int)
  | nonInt
deriving Repr, DecidableEq

/-- Embeds `Array.__getitem__`: only Postgres/Cockroach support indexing;
a non-negative integer index yields a copy with `index = value + 1`
(0-based Python to 1-based SQL); anything else raises. -/
def arrayGetitem (a : ArrayColumnModel) (value : PyIndexArg) :
    Except String ArrayColumnModel :=
  if a.engineType != "postgres" && a.engineType != "cockroach" then
    .error "Only Postgres and Cockroach support array indexing."
  else
    match value with
    | .intArg i =>
      if i < 0 then .error "Only positive integers are allowed."
      else .ok { a with index := some (i + 1) }
    | .nonInt => .error "Only integers can be used for indexing."

/-- Embeds `Array.get_select_string`: the full column name, then `[index]`
when an index is set, then the alias when requested (`self._alias or
self._meta.get_default_alias()`). -/
def arrayGetSelectString (a : ArrayColumnModel) (withAlias : Bool) : String :=
  let selectString := a.fullName
  let selectString :=
    match a.index with
    | some i => selectString ++ s!"[{i}]"
    | none => selectString
  if withAlias then
    let aliasName := match a.aliasOpt with
      | some al => al
      | none => a.defaultAlias
    selectString ++ s!" AS \"{aliasName}\""
  else selectString

/-! ## Helper lemmas -/

theorem toString_string (s : String) : toString s = s := rfl

theorem comma_space_merge (r : String) : "," ++ (" " ++ r) = ", " ++ r := by
  rw [← String.append_assoc]
  congr 1

theorem quote_comma_space_merge (r : String) : "\"," ++ (" " ++ r) = "\", " ++ r := by
  rw [← String.append_assoc]
  congr 1

theorem readChain_append_lt (s : ChainStore) (v : List FKModel) (i : Nat)
    (h : i < s.length) : readChain (s ++ [v]) i = readChain s i := by
  simp [readChain, List.getD, List.getElem?_append, h]

theorem readChain_append_self (s : ChainStore) (v : List FKModel) :
    readChain (s ++ [v]) s.length = v := by
  simp [readChain, List.getD]

theorem readChain_write_ne (s : ChainStore) (i j : Nat) (v : List FKModel)
    (h : i ≠ j) : readChain (writeChain s j v) i = readChain s i := by
  simp [readChain, writeChain, List.getD, List.getElem?_set_ne (Ne.symm h)]

theorem readChain_write_self (s : ChainStore) (j : Nat) (v : List FKModel)
    (h : j < s.length) : readChain (writeChain s j v) j = v := by
  simp [readChain, writeChain, List.getD, List.getElem?_set_self, h]

/-- Helper for C8: the precision gate of `TimedeltaDelegate.get_querystring`
fires exactly on microsecond values that are not whole milliseconds. -/
theorem roundDiv1000_exact_iff (n : Int) :
    roundDiv1000 n * 1000 = n ↔ n % 1000 = 0 := by
  simp only [roundDiv1000]
  split_ifs <;> omega

/-! ## Claim theorems -/

/-- Claim C9: `Column.get_sql_value` renders a `str` wrapped in single
quotes, a `bool` as lower-case `true`/`false`, a `float` or `Decimal`
verbatim via its string form, `None` as `null`; in particular the `Numeric`
default `Decimal(0.0)` renders as the literal `0`. -/
theorem c9_get_sql_value (e s fstr : String) (b : Bool) (d : PyDecimal) :
    getSqlValue e (.pystr s) = "'" ++ s ++ "'" ∧
    getSqlValue e (.pybool b) = (if b then "true" else "false") ∧
    getSqlValue e (.pyfloat fstr) = fstr ∧
    getSqlValue e (.pydecimal d) = decimalStr d ∧
    getSqlValue e .pynone = "null" ∧
    getSqlValue e (.pydecimal numericDefaultDecimal) = "0" := by
  refine ⟨rfl, rfl, rfl, rfl, rfl, ?_⟩
  show decimalStr numericDefaultDecimal = "0"
  decide

/-- Claim C6: once `drop_table` has been called on an `Alter` batch,
rendering yields exactly one statement - the `DROP TABLE` statement -
whatever other operations were accumulated. -/
theorem c6_drop_table_short_circuit (engineType : String) (a : AlterS)
    (dt : DropTableS) (h : a.dropTable = some dt) :
    a.defaultDdl engineType = [dt.ddl] ∧
    (a.defaultDdl engineType).length = 1 := by
  unfold AlterS.defaultDdl
  rw [h]
  exact ⟨rfl, rfl⟩

/-- Witness for C6: a batch that accumulates an added column, a renamed
column, a dropped column and a dropped default around a `drop_table` call
still renders to the single `DROP TABLE` statement. -/
theorem c6_drop_table_short_circuit_witness :
    ((((((AlterS.init "\"band\"").addColumn "members" "\"members\" INTEGER").renameColumn
        "popularity" "rating").dropTableB false false).dropColumn "popularity").dropDefaultB
        "rating").defaultDdl "postgres" = ["DROP TABLE \"band\""] := by
  have h := c6_drop_table_short_circuit "postgres"
    ((((((AlterS.init "\"band\"").addColumn "members" "\"members\" INTEGER").renameColumn
        "popularity" "rating").dropTableB false false).dropColumn "popularity").dropDefaultB
        "rating") ⟨"\"band\"", false, false⟩ (by decide)
  rw [h.1]
  decide

/-- Claim C2: an `Alter` batch with `add_column`, `rename_column`,
`drop_column` issued in that order renders in that order: a single
comma-joined `ALTER TABLE` statement on Postgres/Cockroach, three separate
statements in order on SQLite.  The final conjunct shows the general fixed
category order (add-columns before column drops before schema moves,
whatever order the directives were issued in). -/
theorem c2_alter_clause_order (tbl addDdl rc rcNew dc sc : String) :
    AlterS.defaultDdl "postgres"
        ((((AlterS.init tbl).addColumn "c" addDdl).renameColumn rc rcNew).dropColumn dc) =
      [s!"ALTER TABLE {tbl}" ++ " " ++ s!"ADD COLUMN {addDdl}" ++ ", " ++
        s!"RENAME COLUMN \"{rc}\" TO \"{rcNew}\"" ++ ", " ++ s!"DROP COLUMN \"{dc}\""] ∧
    AlterS.defaultDdl "sqlite"
        ((((AlterS.init tbl).addColumn "c" addDdl).renameColumn rc rcNew).dropColumn dc) =
      [s!"ALTER TABLE {tbl}" ++ " " ++ s!"ADD COLUMN {addDdl}",
       s!"ALTER TABLE {tbl}" ++ " " ++ s!"RENAME COLUMN \"{rc}\" TO \"{rcNew}\"",
       s!"ALTER TABLE {tbl}" ++ " " ++ s!"DROP COLUMN \"{dc}\""] ∧
    AlterS.defaultDdl "cockroach"
        ((((AlterS.init tbl).addColumn "c" addDdl).renameColumn rc rcNew).dropColumn dc) =
      AlterS.defaultDdl "postgres"
        ((((AlterS.init tbl).addColumn "c" addDdl).renameColumn rc rcNew).dropColumn dc) ∧
    ((((AlterS.init tbl).setSchemaB sc).dropColumn dc).addColumn "c" addDdl).alterations =
      [s!"ADD COLUMN {addDdl}", s!"DROP COLUMN \"{dc}\"", s!"SET SCHEMA \"{sc}\""] := by
  refine ⟨?_, ?_, rfl, ?_⟩
  · simp [AlterS.defaultDdl, AlterS.alterations, AlterS.init, AlterS.addColumn,
      AlterS.renameColumn, AlterS.dropColumn, AddColumnS.ddl, RenameColumnS.ddl,
      DropColumnS.ddl, String.intercalate, String.intercalate.go, toString_string,
      String.append_assoc, comma_space_merge, quote_comma_space_merge]
  · simp [AlterS.defaultDdl, AlterS.alterations, AlterS.init, AlterS.addColumn,
      AlterS.renameColumn, AlterS.dropColumn, AddColumnS.ddl, RenameColumnS.ddl,
      DropColumnS.ddl, toString_string, String.append_assoc]
  · simp [AlterS.alterations, AlterS.init, AlterS.addColumn, AlterS.setSchemaB,
      AlterS.dropColumn, AddColumnS.ddl, DropColumnS.ddl, SetSchemaS.ddl]

/-- Claim C3: a frozen query returns its cached querystrings unconditionally
- identical on every request and independent of the engine dialect - and any
attribute access on the `FrozenQuery` wrapper (in particular every structural
clause such as `where`, `limit`, `output`, which are attributes of the
wrapped query) raises an `AttributeError` rather than mutating the query. -/
theorem c3_frozen_query (engineType engine1 engine2 : String) (q qf : QueryModel)
    (hfreeze : freeze engineType q = .ok qf) :
    (∃ out, qf.frozenQuerystrings = some out ∧
      querystrings engine1 qf = .ok out ∧
      querystrings engine2 qf = .ok out) ∧
    (∀ attrs name, attrs.contains name = true →
      frozenQueryGetattr attrs name =
        .error s!"This query is frozen - {name} is only available on unfrozen queries.") ∧
    (∀ attrs name (u : Unit), frozenQueryGetattr attrs name ≠ .ok u) := by
  refine ⟨?_, ?_, ?_⟩
  · unfold freeze at hfreeze
    cases hqs : querystrings engineType q with
    | ok out =>
      rw [hqs] at hfreeze
      cases hfreeze
      exact ⟨out, rfl, rfl, rfl⟩
    | error e => rw [hqs] at hfreeze; cases hfreeze
  · intro attrs name h
    unfold frozenQueryGetattr
    rw [h]
    simp
  · intro attrs name u
    unfold frozenQueryGetattr
    split_ifs <;> simp

/-- Witness for C3: freezing a query whose default renderer produces
`SELECT 1` caches that text; rendering under two different dialects returns
it unchanged, and the `where` clause attribute is rejected. -/
theorem c3_frozen_query_witness :
    (∃ out, (QueryModel.mk (some ["SELECT 1"]) none none none (some ["SELECT 1"])).frozenQuerystrings
        = some out ∧
      querystrings "postgres" (QueryModel.mk (some ["SELECT 1"]) none none none (some ["SELECT 1"]))
        = .ok out ∧
      querystrings "sqlite" (QueryModel.mk (some ["SELECT 1"]) none none none (some ["SELECT 1"]))
        = .ok out) ∧
    frozenQueryGetattr ["where", "limit", "output"] "where" =
      .error "This query is frozen - where is only available on unfrozen queries." := by
  have h := c3_frozen_query "postgres" "postgres" "sqlite"
    (QueryModel.mk none none none none (some ["SELECT 1"]))
    (QueryModel.mk (some ["SELECT 1"]) none none none (some ["SELECT 1"]))
    rfl
  exact ⟨h.1, h.2.1 ["where", "limit", "output"] "where" (by decide)⟩

/-- Claim C8: on the SQLite dialect, adding or subtracting a timedelta on a
`Timestamp` or `Timestamptz` column raises a precision error exactly when the
timedelta's microseconds are not a whole number of milliseconds; whole
milliseconds render to the `strftime` expression (with the timedelta negated
for subtraction). -/
theorem c8_sqlite_timestamp_precision (k : TemporalColumnKind)
    (hk : k = .timestamp ∨ k = .timestamptz)
    (columnName op : String) (value : PyTimedelta) :
    (value.microseconds % 1000 ≠ 0 →
      timedeltaGetQuerystring k columnName op value "sqlite" =
        .error ("timedeltas with such high precision won't save " ++
          "accurately - the max resolution is 1 millisecond.")) ∧
    (value.microseconds % 1000 = 0 →
      timedeltaGetQuerystring k columnName op value "sqlite" =
        .ok (.sqliteStrftime "%Y-%m-%d %H:%M:%f" columnName
          (if op == "-" then PyTimedelta.mk (-value.us) else value))) := by
  have hgate : (roundDiv1000 value.microseconds * 1000 ≠ value.microseconds) ↔
      value.microseconds % 1000 ≠ 0 :=
    not_congr (roundDiv1000_exact_iff value.microseconds)
  constructor
  · intro hne
    rcases hk with hk | hk <;> subst hk <;>
      simp [timedeltaGetQuerystring, hgate.mpr hne]
  · intro heq
    have hyes : ¬(roundDiv1000 value.microseconds * 1000 ≠ value.microseconds) := by
      simp [hgate, heq]
    rcases hk with hk | hk <;> subst hk <;>
      simp [timedeltaGetQuerystring, if_neg hyes]

/-- Witness for C8: a 1500 microsecond timedelta (1.5 ms) is rejected on a
SQLite `Timestamp` column, while a 2000 microsecond timedelta (2 ms) renders
to the `strftime` expression, negated under subtraction. -/
theorem c8_sqlite_timestamp_precision_witness :
    timedeltaGetQuerystring .timestamp "starts" "+" ⟨1500⟩ "sqlite" =
      .error ("timedeltas with such high precision won't save " ++
        "accurately - the max resolution is 1 millisecond.") ∧
    timedeltaGetQuerystring .timestamptz "starts" "-" ⟨2000⟩ "sqlite" =
      .ok (.sqliteStrftime "%Y-%m-%d %H:%M:%f" "starts" ⟨-2000⟩) := by
  constructor
  · exact (c8_sqlite_timestamp_precision .timestamp (Or.inl rfl) "starts" "+" ⟨1500⟩).1
      (by decide)
  · exact (c8_sqlite_timestamp_precision .timestamptz (Or.inr rfl) "starts" "-" ⟨2000⟩).2
      (by decide)

/-- Claim C10: `Array.__getitem__` with a non-negative integer `i` on
Postgres/Cockroach returns a copy whose only change is `index = i + 1`
(0-based Python to 1-based SQL), and its rendered select string appends
`[i + 1]` to the column name; a negative integer or a non-integer raises,
and on SQLite indexing raises naming the unsupported capability. -/
theorem c10_array_indexing (a : ArrayColumnModel) (i : Int)
    (heng : a.engineType = "postgres" ∨ a.engineType = "cockroach") :
    (0 ≤ i →
      arrayGetitem a (.intArg i) = .ok { a with index := some (i + 1) } ∧
      arrayGetSelectString { a with index := some (i + 1) } false =
        a.fullName ++ s!"[{i + 1}]") ∧
    (i < 0 →
      arrayGetitem a (.intArg i) = .error "Only positive integers are allowed.") ∧
    arrayGetitem a .nonInt = .error "Only integers can be used for indexing." ∧
    (∀ (b : ArrayColumnModel) (v : PyIndexArg), b.engineType = "sqlite" →
      arrayGetitem b v = .error "Only Postgres and Cockroach support array indexing.") := by
  have hpg : (a.engineType != "postgres" && a.engineType != "cockroach") = false := by
    rcases heng with h | h <;> simp [h]
  refine ⟨?_, ?_, ?_, ?_⟩
  · intro hi
    constructor
    · simp [arrayGetitem, hpg, not_lt.mpr hi]
    · simp [arrayGetSelectString]
  · intro hi
    simp [arrayGetitem, hpg, hi]
  · simp [arrayGetitem, hpg]
  · intro b v hb
    simp [arrayGetitem, hb]

/-- Witness for C10: indexing `Ticket.seat_numbers` with `0` on Postgres
renders `[1]`; `-1` raises; SQLite raises the capability error. -/
theorem c10_array_indexing_witness :
    arrayGetitem ⟨"postgres", none, "ticket.seat_numbers", none, "seat_numbers"⟩
        (.intArg 0) =
      .ok ⟨"postgres", some 1, "ticket.seat_numbers", none, "seat_numbers"⟩ ∧
    arrayGetSelectString
        ⟨"postgres", some 1, "ticket.seat_numbers", none, "seat_numbers"⟩ false =
      "ticket.seat_numbers[1]" ∧
    arrayGetitem ⟨"postgres", none, "ticket.seat_numbers", none, "seat_numbers"⟩
        (.intArg (-1)) =
      .error "Only positive integers are allowed." ∧
    arrayGetitem ⟨"sqlite", none, "ticket.seat_numbers", none, "seat_numbers"⟩
        (.intArg 0) =
      .error "Only Postgres and Cockroach support array indexing." := by
  have h := c10_array_indexing
    ⟨"postgres", none, "ticket.seat_numbers", none, "seat_numbers"⟩ 0 (Or.inl rfl)
  have h2 := c10_array_indexing
    ⟨"postgres", none, "ticket.seat_numbers", none, "seat_numbers"⟩ (-1) (Or.inl rfl)
  refine ⟨(h.1 (by decide)).1, ?_, h2.2.1 (by decide), ?_⟩
  · have := (h.1 (by decide)).2
    simpa using this
  · exact h.2.2.2 ⟨"sqlite", none, "ticket.seat_numbers", none, "seat_numbers"⟩
      (.intArg 0) rfl

/-- Helper: `List.find?` returns the head of the filtered list. -/
theorem find?_eq_head_filter {α : Type} (l : List α) (p : α → Bool) :
    l.find? p = (l.filter p).head? := by
  induction l with
  | nil => rfl
  | cons a t ih =>
    by_cases h : p a
    · rw [List.find?_cons_of_pos _ h, List.filter_cons_of_pos h]
      rfl
    · rw [List.find?_cons_of_neg _ h, List.filter_cons_of_neg h]
      exact ih

/-- Counterexample to claim C7: a junction table whose two foreign keys both
reference the declaring table (table `0`).  Two columns match the primary
role, yet `primary_foreign_key` raises no configuration error - it returns
the first match. -/
theorem c7_counterexample :
    ((M2MMetaModel.mk 0 [⟨"fk_a", 0⟩, ⟨"fk_b", 0⟩] none).foreignKeyColumns.filter
        (fun fk => fk.references == 0)).length = 2 ∧
    (M2MMetaModel.mk 0 [⟨"fk_a", 0⟩, ⟨"fk_b", 0⟩] none).primaryForeignKey =
      .ok ⟨"fk_a", 0⟩ := by
  exact ⟨by decide, rfl⟩

/-- Claim C7 (amended): resolving the primary (resp. secondary) role raises
the configuration error exactly when no foreign-key column of the junction
table references (resp. does not reference) the declaring table; otherwise
the first matching column in declaration order is returned - several matches
do not raise. -/
theorem c7_role_resolution_amended (m : M2MMetaModel) :
    (m.primaryForeignKey = .error "No matching foreign key column found!" ↔
      ∀ fk ∈ m.foreignKeyColumns, fk.references ≠ m.table) ∧
    (∀ fk, m.primaryForeignKey = .ok fk →
      (m.foreignKeyColumns.filter (fun g => g.references == m.table)).head? = some fk ∧
      fk ∈ m.foreignKeyColumns ∧ fk.references = m.table) ∧
    (m.secondaryForeignKey = .error "No matching foreign key column found!" ↔
      ∀ fk ∈ m.foreignKeyColumns, fk.references = m.table) ∧
    (∀ fk, m.secondaryForeignKey = .ok fk →
      (m.foreignKeyColumns.filter (fun g => !(g.references == m.table))).head? = some fk ∧
      fk ∈ m.foreignKeyColumns ∧ fk.references ≠ m.table) := by
  refine ⟨?_, ?_, ?_, ?_⟩
  · unfold M2MMetaModel.primaryForeignKey
    cases h : m.foreignKeyColumns.find? (fun fk => fk.references == m.table) with
    | some fk =>
      simp only [reduceCtorEq, false_iff, not_forall]
      have hmem := List.mem_of_find?_eq_some h
      have hp := List.find?_some h
      simp only [beq_iff_eq] at hp
      exact ⟨fk, hmem, not_not_intro hp⟩
    | none =>
      have hall := List.find?_eq_none.mp h
      simp only [beq_iff_eq] at hall
      simp only [true_iff]
      exact hall
  · intro fk hfk
    unfold M2MMetaModel.primaryForeignKey at hfk
    cases h : m.foreignKeyColumns.find? (fun g => g.references == m.table) with
    | some fk2 =>
      rw [h] at hfk
      cases hfk
      have hmem := List.mem_of_find?_eq_some h
      have hp := List.find?_some h
      simp only [beq_iff_eq] at hp
      exact ⟨by rw [← find?_eq_head_filter]; exact h, hmem, hp⟩
    | none => rw [h] at hfk; cases hfk
  · unfold M2MMetaModel.secondaryForeignKey
    cases h : m.foreignKeyColumns.find? (fun fk => !(fk.references == m.table)) with
    | some fk =>
      simp only [reduceCtorEq, false_iff, not_forall]
      have hmem := List.mem_of_find?_eq_some h
      have hp := List.find?_some h
      simp only [Bool.not_eq_true', beq_eq_false_iff_ne, ne_eq] at hp
      exact ⟨fk, hmem, hp⟩
    | none =>
      have hall := List.find?_eq_none.mp h
      simp only [Bool.not_eq_true', beq_eq_false_iff_ne, ne_eq, not_not] at hall
      simp only [true_iff]
      exact hall
  · intro fk hfk
    unfold M2MMetaModel.secondaryForeignKey at hfk
    cases h : m.foreignKeyColumns.find? (fun g => !(g.references == m.table)) with
    | some fk2 =>
      rw [h] at hfk
      cases hfk
      have hmem := List.mem_of_find?_eq_some h
      have hp := List.find?_some h
      simp only [Bool.not_eq_true', beq_eq_false_iff_ne, ne_eq] at hp
      exact ⟨by rw [← find?_eq_head_filter]; exact h, hmem, hp⟩
    | none => rw [h] at hfk; cases hfk

/-- Witness for C7 (amended): a well-configured junction table
(`GenreToBand(band -> table 0, genre -> table 1)` with the descriptor on
table 0) resolves `band` as primary and `genre` as secondary. -/
theorem c7_role_resolution_amended_witness :
    ((M2MMetaModel.mk 0 [⟨"band", 0⟩, ⟨"genre", 1⟩] none).foreignKeyColumns.filter
        (fun g => g.references == 0)).head? = some ⟨"band", 0⟩ ∧
    (⟨"band", 0⟩ : FKModel) ∈
      (M2MMetaModel.mk 0 [⟨"band", 0⟩, ⟨"genre", 1⟩] none).foreignKeyColumns ∧
    (⟨"genre", 1⟩ : FKModel) ∈
      (M2MMetaModel.mk 0 [⟨"band", 0⟩, ⟨"genre", 1⟩] none).foreignKeyColumns := by
  have h1 := (c7_role_resolution_amended
    (M2MMetaModel.mk 0 [⟨"band", 0⟩, ⟨"genre", 1⟩] none)).2.1 ⟨"band", 0⟩ rfl
  have h2 := (c7_role_resolution_amended
    (M2MMetaModel.mk 0 [⟨"band", 0⟩, ⟨"genre", 1⟩] none)).2.2.2 ⟨"genre", 1⟩ rfl
  exact ⟨h1.1, h1.2.1, h2.2.1⟩

/-- Counterexample to claim C4: on the SQLite dialect a request for two
transport-safe columns does not select the requested columns - the rendered
sub-query aggregates only the related table's primary key (`id`), which is
not among the requested columns. -/
theorem c4_counterexample :
    serialisationSafe [⟨"name", .vtStr, false⟩, ⟨"popularity", .vtInt, false⟩] = true ∧
    m2mGetSelectString "sqlite"
        ⟨[⟨"name", .vtStr, false⟩, ⟨"popularity", .vtInt, false⟩],
          false, false, "genres", "id"⟩ =
      .ok (.sqliteGroupConcat "id" "genres [M2M]") ∧
    ([(⟨"name", .vtStr, false⟩ : M2MColumnModel), ⟨"popularity", .vtInt, false⟩].map
        (fun c => c.dbColumnName)).contains "id" = false := by
  exact ⟨by decide, rfl, by decide⟩

/-- Claim C4 (amended): on Postgres/Cockroach the rendered sub-query selects
the requested columns when all are transport-safe (via `JSON_AGG`), the
related primary key otherwise, and the single requested column directly when
`as_list` was requested; on SQLite the string aggregation selects the single
requested column only when exactly one transport-safe column is requested,
and the related primary key otherwise. -/
theorem c4_m2m_select_columns (e : String) (m : M2MSelectModel)
    (he : e = "postgres" ∨ e = "cockroach") :
    (m.asList = true → ∀ c, m.columns.head? = some c →
      m2mGetSelectString e m = .ok (.pgArray c.dbColumnName m.m2mName)) ∧
    (m.asList = false → serialisationSafe m.columns = true →
      m2mGetSelectString e m =
        .ok (.pgJsonAgg (m.columns.map (fun c => c.dbColumnName)) m.m2mName)) ∧
    (m.asList = false → serialisationSafe m.columns = false →
      m2mGetSelectString e m = .ok (.pgArray m.table2PkName m.m2mName)) ∧
    (m.columns.length = 1 → serialisationSafe m.columns = true →
      ∀ c, m.columns.head? = some c →
      m2mGetSelectString "sqlite" m =
        .ok (.sqliteGroupConcat c.dbColumnName (m.m2mName ++ " [M2M]"))) ∧
    ((1 < m.columns.length ∨ serialisationSafe m.columns = false) →
      m2mGetSelectString "sqlite" m =
        .ok (.sqliteGroupConcat m.table2PkName (m.m2mName ++ " [M2M]"))) := by
  have hpg : (e == "postgres" || e == "cockroach") = true := by
    rcases he with h | h <;> simp [h]
  refine ⟨?_, ?_, ?_, ?_, ?_⟩
  · intro hl c hc
    simp [m2mGetSelectString, hpg, hl, hc]
  · intro hl hsafe
    simp [m2mGetSelectString, hpg, hl, hsafe]
  · intro hl hsafe
    simp [m2mGetSelectString, hpg, hl, hsafe]
  · intro hlen hsafe c hc
    have hcond : (1 < m.columns.length || !(serialisationSafe m.columns)) = false := by
      simp [hlen, hsafe]
    simp [m2mGetSelectString, hcond, hc]
  · intro hcond
    have hcond2 : (1 < m.columns.length || !(serialisationSafe m.columns)) = true := by
      rcases hcond with h | h <;> simp [h]
    simp [m2mGetSelectString, hcond2]

/-- Witness for C4 (amended): two safe columns on Postgres are aggregated via
`JSON_AGG` in request order; a JSON column forces the primary-key fallback;
an `as_list` request selects its single column directly. -/
theorem c4_m2m_select_columns_witness :
    m2mGetSelectString "postgres"
        ⟨[⟨"name", .vtStr, false⟩, ⟨"popularity", .vtInt, false⟩],
          false, false, "genres", "id"⟩ =
      .ok (.pgJsonAgg ["name", "popularity"] "genres") ∧
    m2mGetSelectString "postgres"
        ⟨[⟨"data", .vtStr, true⟩], false, false, "genres", "id"⟩ =
      .ok (.pgArray "id" "genres") ∧
    m2mGetSelectString "postgres"
        ⟨[⟨"name", .vtStr, false⟩], true, false, "genres", "id"⟩ =
      .ok (.pgArray "name" "genres") := by
  refine ⟨?_, ?_, ?_⟩
  · exact (c4_m2m_select_columns "postgres"
      ⟨[⟨"name", .vtStr, false⟩, ⟨"popularity", .vtInt, false⟩],
        false, false, "genres", "id"⟩ (Or.inl rfl)).2.1 rfl (by decide)
  · exact (c4_m2m_select_columns "postgres"
      ⟨[⟨"data", .vtStr, true⟩], false, false, "genres", "id"⟩
      (Or.inl rfl)).2.2.1 rfl (by decide)
  · exact (c4_m2m_select_columns "postgres"
      ⟨[⟨"name", .vtStr, false⟩], true, false, "genres", "id"⟩
      (Or.inl rfl)).1 rfl ⟨"name", .vtStr, false⟩ rfl

/-- Key lemma for C1: along a valid path, traversal starting from an
accumulated chain `c` (with `c.length ≤ 9`, the invariant maintained by the
depth check) reaches the terminal plain column with chain `c ++ f :: fks`
exactly when `c.length + fks.length ≤ 9`, and otherwise stops with the
chain-too-long error raised by the first foreign-key hop that reaches depth
10. -/
theorem resolvePath_validFrom (schema : Schema) {f : FKModel} {attrs : List String}
    {fks : List FKModel} {term : String} (h : ValidFrom schema f attrs fks term) :
    ∀ c : List FKModel, c.length ≤ 9 →
      resolvePath schema f c attrs =
        if c.length + fks.length ≤ 9
        then Except.ok (Traversed.plainCol term (c ++ f :: fks))
        else Except.error "Call chain too long!" := by
  induction h with
  | last f t term h1 h2 h3 =>
    intro c hc
    rw [if_pos (by simpa using hc)]
    have h3m : term ∈ t.plainCols := by simpa using h3
    simp [resolvePath, fkGetattribute, h1, h2, h3m]
  | step f t a f2 attrs fks term h1 h2 hv ih =>
    intro c hc
    by_cases h9 : c.length = 9
    · rw [if_neg (by simp; omega)]
      simp [resolvePath, fkGetattribute, h1, h2, h9]
    · have hshort : ¬ 9 ≤ c.length := by omega
      have ihc := ih (c ++ [f]) (by simp; omega)
      have harr : (c ++ [f]) ++ f2 :: fks = c ++ f :: f2 :: fks := by simp
      rw [harr] at ihc
      have hres : resolvePath schema f c (a :: attrs) =
          resolvePath schema f2 (c ++ [f]) attrs := by
        simp [resolvePath, fkGetattribute, h1, h2, hshort]
      rw [hres, ihc]
      refine if_congr ?_ rfl rfl
      simp
      omega

/-- Claim C1: along any valid relationship chain of length `L` (`L - 1`
intermediate foreign-key hops recorded in `fks`, plus the root foreign key
`f`), traversal to the terminal plain column succeeds whenever `L ≤ 10`,
returning the terminal column (equal, up to its chain, to the plain column
`term` on the target table) with `call_chain = f :: fks` of exactly `L`
elements in traversal order; for `L = 11` the traversal raises the
chain-too-long error. -/
theorem c1_join_chain_depth (schema : Schema) (f : FKModel) (attrs : List String)
    (fks : List FKModel) (term : String) (h : ValidFrom schema f attrs fks term) :
    (fks.length + 1 ≤ 10 →
      resolvePath schema f [] attrs = .ok (.plainCol term (f :: fks)) ∧
      (f :: fks).length = fks.length + 1) ∧
    (fks.length + 1 = 11 →
      resolvePath schema f [] attrs = .error "Call chain too long!") := by
  have key := resolvePath_validFrom schema h [] (by simp)
  constructor
  · intro hL
    rw [key, if_pos (by simp; omega)]
    exact ⟨by simp, by simp⟩
  · intro hL
    rw [key, if_neg (by simp; omega)]

/-- Witness for C1: in a self-referencing schema (table `0` with a plain
column `name` and a foreign key `next -> table 0`), a 2-hop chain resolves
with a chain of exactly the two traversed foreign keys, and an 11-hop chain
raises the chain-too-long error. -/
theorem c1_join_chain_depth_witness :
    resolvePath [TableModel.mk ["name"] [⟨"next", 0⟩]] ⟨"next", 0⟩ [] ["next", "name"] =
      .ok (.plainCol "name" [⟨"next", 0⟩, ⟨"next", 0⟩]) ∧
    resolvePath [TableModel.mk ["name"] [⟨"next", 0⟩]] ⟨"next", 0⟩ []
        (List.replicate 10 "next" ++ ["name"]) =
      .error "Call chain too long!" := by
  have hlast : ValidFrom [TableModel.mk ["name"] [⟨"next", 0⟩]] ⟨"next", 0⟩
      ["name"] [] "name" :=
    .last _ _ _ rfl rfl rfl
  have hstep : ∀ attrs fks,
      ValidFrom [TableModel.mk ["name"] [⟨"next", 0⟩]] ⟨"next", 0⟩ attrs fks "name" →
      ValidFrom [TableModel.mk ["name"] [⟨"next", 0⟩]] ⟨"next", 0⟩
        ("next" :: attrs) (⟨"next", 0⟩ :: fks) "name" :=
    fun _ _ hv => .step _ _ _ _ _ _ _ rfl rfl hv
  have h2 := hstep _ _ hlast
  have h11 := hstep _ _ (hstep _ _ (hstep _ _ (hstep _ _ (hstep _ _ (hstep _ _
    (hstep _ _ (hstep _ _ (hstep _ _ (hstep _ _ hlast)))))))))
  constructor
  · exact ((c1_join_chain_depth _ _ _ _ _ h2).1 (by decide)).1
  · have := (c1_join_chain_depth _ _ _ _ _ h11).2 (by decide)
    simpa using this

/-- Claim C5: traversing a plain column through a foreign key returns a fresh
copy: the store cells holding the original column's `call_chain` and the
foreign key's own `call_chain` are unchanged, the copy refers to a new cell,
and that new cell holds the foreign key's chain extended by the foreign key
itself. -/
theorem c5_traversal_copy (s : ChainStore) (selfFK : FKModel) (selfChainRef : Nat)
    (attrCol : ColumnRef) (hself : selfChainRef < s.length)
    (hattr : attrCol.chainRef < s.length) :
    readChain (fkGetattrPlain s selfFK selfChainRef attrCol).1 attrCol.chainRef =
      readChain s attrCol.chainRef ∧
    readChain (fkGetattrPlain s selfFK selfChainRef attrCol).1 selfChainRef =
      readChain s selfChainRef ∧
    (fkGetattrPlain s selfFK selfChainRef attrCol).2.chainRef ≠ attrCol.chainRef ∧
    (fkGetattrPlain s selfFK selfChainRef attrCol).2.chainRef ≠ selfChainRef ∧
    readChain (fkGetattrPlain s selfFK selfChainRef attrCol).1
        (fkGetattrPlain s selfFK selfChainRef attrCol).2.chainRef =
      readChain s selfChainRef ++ [selfFK] ∧
    (fkGetattrPlain s selfFK selfChainRef attrCol).2.name = attrCol.name := by
  have hne_attr : s.length ≠ attrCol.chainRef := by omega
  have hne_self : s.length ≠ selfChainRef := by omega
  have hs1len : selfChainRef < (s ++ [readChain s attrCol.chainRef]).length := by
    simp; omega
  have hwlen : s.length < (s ++ [readChain s attrCol.chainRef]).length := by simp
  have hwlen2 : s.length <
      (writeChain (s ++ [readChain s attrCol.chainRef]) s.length
        (readChain (s ++ [readChain s attrCol.chainRef]) selfChainRef)).length := by
    simp [writeChain]
  simp only [fkGetattrPlain, columnCopy, allocChain, readChain_append_lt s _ _ hattr]
  refine ⟨?_, ?_, by omega, by omega, ?_, by trivial⟩
  · rw [readChain_write_ne _ _ _ _ (Ne.symm hne_attr),
      readChain_write_ne _ _ _ _ (Ne.symm hne_attr),
      readChain_append_lt s _ _ hattr]
  · rw [readChain_write_ne _ _ _ _ (Ne.symm hne_self),
      readChain_write_ne _ _ _ _ (Ne.symm hne_self),
      readChain_append_lt s _ _ hself]
  · rw [readChain_write_self _ _ _ hwlen2, readChain_write_self _ _ _ hwlen,
      readChain_append_lt s _ _ hself]

/-- Witness for C5: a two-cell store (the foreign key's empty chain in cell 0,
the referenced column `name`'s empty chain in cell 1); traversal leaves both
cells unchanged and allocates cell 2 holding the extended chain. -/
theorem c5_traversal_copy_witness :
    readChain (fkGetattrPlain [[], []] ⟨"manager", 1⟩ 0 ⟨"name", 1⟩).1 1 =
      readChain [[], []] 1 ∧
    readChain (fkGetattrPlain [[], []] ⟨"manager", 1⟩ 0 ⟨"name", 1⟩).1 0 =
      readChain [[], []] 0 ∧
    (fkGetattrPlain [[], []] ⟨"manager", 1⟩ 0 ⟨"name", 1⟩).2.chainRef ≠ 1 ∧
    (fkGetattrPlain [[], []] ⟨"manager", 1⟩ 0 ⟨"name", 1⟩).2.chainRef ≠ 0 ∧
    readChain (fkGetattrPlain [[], []] ⟨"manager", 1⟩ 0 ⟨"name", 1⟩).1
        (fkGetattrPlain [[], []] ⟨"manager", 1⟩ 0 ⟨"name", 1⟩).2.chainRef =
      readChain [[], []] 0 ++ [⟨"manager", 1⟩] ∧
    (fkGetattrPlain [[], []] ⟨"manager", 1⟩ 0 ⟨"name", 1⟩).2.name = "name" := by
  exact c5_traversal_copy [[], []] ⟨"manager", 1⟩ 0 ⟨"name", 1⟩ (by decide) (by decide)

end Piccolo
